import Mathlib

/-!
Shallow embedding of `src/PyOdataEdmModel/EdmModel.py` (class `ODataEdmBuilder`).

Python dictionaries with conventionally present/absent keys are embedded as
structures whose optional keys are `Option` fields (`none` = key absent).
Mutation is embedded as value passing: every operation that mutates a record
returns the updated record; an operation that can raise returns `Except PyError`,
and an `.error` result models a Python exception raised before/after the listed
mutations (a raise leaves the caller's records unchanged, since no updated value
is produced).

Numbers passed for `max_length` / `precision` / `scale` (Python
`Optional[Union[int, float]]`) are embedded as `Option PyNum`, where `PyNum`
is either an integer or the float `nan`; the only float operations the source
performs on them are Python truthiness (`0` falsy, `nan` truthy),
`math.isnan`, `int(...)` conversion and comparison with `-1`, all of which
`PyNum` supports. Non-integral finite floats are not distinguished from their
`int(...)` truncations, which is the only way the source observes them.
-/

namespace EdmModel

/-- Python exception kinds raised (or reachable) in `EdmModel.py`. -/
inductive PyError where
  | valueError (msg : String)
  | keyError (msg : String)
  | typeError (msg : String)
  deriving Repr, DecidableEq

/-- A Python `int`/`float` argument: an integer or the float `nan`. -/
inductive PyNum where
  | nan : PyNum
  | int (n : Int) : PyNum
  deriving Repr, DecidableEq

/-- Python truthiness of an `Optional[Union[int, float]]` value:
`None` and `0` are falsy, `nan` and every nonzero number are truthy. -/
def pyTruthy : Option PyNum → Bool
  | none => false
  | some PyNum.nan => true
  | some (PyNum.int n) => n != 0

/-- Python `math.isnan` on an optional number. The source only calls it after a
truthiness guard, so the argument is never `None` there (Python would raise
`TypeError` on `None`); we return `false` for `none`, unreachable behind the
guards. -/
def pyIsNan : Option PyNum → Bool
  | some PyNum.nan => true
  | _ => false

/-- Python `int(...)` on an optional number. The source only calls it behind
`isnan` and truthiness guards, so the `none` / `nan` cases (which raise in
Python) are unreachable; they are mapped to `0`. -/
def pyInt : Option PyNum → Int
  | some (PyNum.int n) => n
  | _ => 0

/-- Python `str(bool).lower()`. -/
def pyBoolStr (b : Bool) : String := if b then "true" else "false"

/-- A `Property` dict built by `add_property`: `MaxLength`, `Precision`,
`Scale` keys are present only when attached. -/
structure Property where
  Name : String
  «Type» : String
  Nullable : Bool
  MaxLength : Option Int
  Precision : Option Int
  Scale : Option Int
  deriving Repr, DecidableEq

/-- A navigation-property dict built by `add_navigation_property`. -/
structure NavigationProperty where
  Schema : String
  Name : String
  «Type» : String
  Partner : String
  Nullable : Bool
  Property : String
  ReferencedProperty : String
  deriving Repr, DecidableEq

/-- The `Documentation` dict of an entity type: `Summary` and
`LongDescription` keys present only when a truthy value was supplied. -/
structure Documentation where
  Summary : Option String
  LongDescription : Option String
  deriving Repr, DecidableEq

/-- An `EntityType` dict. `Keys` is present exactly when `add_entity_type`
was called without a base type; `BaseType` exactly when it was called with
one; `NavigationProperties` appears after the first
`add_navigation_property`. -/
structure EntityType where
  Name : String
  Properties : List Property
  Keys : Option (List String)
  BaseType : Option String
  NavigationProperties : Option (List NavigationProperty)
  Documentation : Documentation
  deriving Repr, DecidableEq

/-- A `NavigationPropertyBinding` dict attached to an entity set. -/
structure Binding where
  Path : String
  Target : String
  deriving Repr, DecidableEq

/-- An `EntitySet` dict; the `NavigationPropertyBinding` key is present only
when `add_entity_set` found navigation properties on the looked-up type. -/
structure EntitySet where
  Name : String
  EntityType : String
  NavigationPropertyBinding : Option (List Binding)
  deriving Repr, DecidableEq

/-- An `EntityContainer` dict. -/
structure EntityContainer where
  Name : String
  EntitySets : List EntitySet
  deriving Repr, DecidableEq

/-- A `Schema` dict; the `Alias` key is present only when a truthy alias was
supplied to `add_schema`. -/
structure Schema where
  Namespace : String
  Alias : Option String
  EntityTypes : List EntityType
  EntityContainers : List EntityContainer
  deriving Repr, DecidableEq

/-- The `ODataEdmBuilder` object state. -/
structure ODataEdmBuilder where
  «namespace» : String
  service_name : String
  schemas : List Schema
  metadata : String
  deriving Repr, DecidableEq

/-- Modelled from the spec: the module `PyOdataEdmModel.primitives` (imported
at the top of `EdmModel.py` and used only as the membership set in `add_key`)
is not among the source files; the spec describes it as "the fixed EDM scalar
types (Edm.Int32, Edm.String, Edm.Decimal, etc.) eligible for use as a key",
i.e. the fixed OData 4.0 primitive-type names. -/
def primitives : List String :=
  ["Edm.Binary", "Edm.Boolean", "Edm.Byte", "Edm.Date", "Edm.DateTimeOffset",
    "Edm.Decimal", "Edm.Double", "Edm.Duration", "Edm.Guid", "Edm.Int16",
    "Edm.Int32", "Edm.Int64", "Edm.SByte", "Edm.Single", "Edm.Stream",
    "Edm.String", "Edm.TimeOfDay"]

/-- Embeds `ODataEdmBuilder.add_schema`: appends a schema dict; the `Alias` key is
set only when the alias is truthy (the default `""` is falsy, embedded as
`none`). The `isinstance(schema_name, str)` check cannot fail in the
embedding, where the argument is a `String`. -/
def add_schema (b : ODataEdmBuilder) (schema_name : String)
    («alias» : Option String) : ODataEdmBuilder × Schema :=
  let schema : Schema :=
    { Namespace := schema_name, Alias := «alias», EntityTypes := [],
      EntityContainers := [] }
  ({ b with schemas := b.schemas ++ [schema] }, schema)

/-- The `for schema in self.schemas` loop body of `get_schema_by_name`:
return on a `Namespace` match; else, if the schema has an `Alias`, return on
an alias match or continue; else (no `Alias` key) raise immediately.
Falling off the loop end is Python's implicit `return None`, embedded as
`.ok none`. -/
def getSchemaLoop (schema_name : String) : List Schema → Except PyError (Option Schema)
  | [] => .ok none
  | schema :: rest =>
    if schema.Namespace == schema_name then .ok (some schema)
    else
      match schema.Alias with
      | some a =>
        if a == schema_name then .ok (some schema)
        else getSchemaLoop schema_name rest
      | none =>
        .error (.valueError
          ("Schema with Name or Alias " ++ schema_name ++ " does not exist"))

/-- Embeds `ODataEdmBuilder.get_schema_by_name`. The `isinstance` check cannot fail
in the embedding. -/
def get_schema_by_name (b : ODataEdmBuilder) (schema_name : String) :
    Except PyError (Option Schema) :=
  getSchemaLoop schema_name b.schemas

/-- Embeds `ODataEdmBuilder.get_entity_type_by_name`, taking the already-resolved
schema dict (the `isinstance(schema, str)` branch resolves the name first):
first entity type whose `Name` matches, else `KeyError`. -/
def get_entity_type_by_name (schema : Schema) (entity_type_name : String) :
    Except PyError EntityType :=
  match schema.EntityTypes.find? (fun et => et.Name == entity_type_name) with
  | some et => .ok et
  | none =>
    .error (.keyError
      ("Entity type " ++ entity_type_name ++ " not found in the given schema."))

/-- Builds the `Documentation` dict of `add_entity_type`: keys set only for
truthy (in the embedding: `some`) arguments; the default `""` is falsy. -/
def mkDocumentation (summary long_description : Option String) : Documentation :=
  { Summary := summary, LongDescription := long_description }

/-- Embeds `ODataEdmBuilder.add_entity_type`, taking the already-resolved schema
dict. `base_type` is `Optional[str | dict]`: `none` embeds the falsy
defaults (`""`, `None`), `.inl` a type name, `.inr` an entity-type dict. The
`"Keys" in entity_type` check mirrors the source's dead check on the freshly
created dict (its `Keys` key is never present at that point). Returns the
updated schema and the appended entity type. -/
def add_entity_type (schema : Schema) (entity_type_name : String)
    (base_type : Option (String ⊕ EntityType))
    (summary long_description : Option String) :
    Except PyError (Schema × EntityType) :=
  let et0 : EntityType :=
    { Name := entity_type_name, Properties := [], Keys := none,
      BaseType := none, NavigationProperties := none,
      Documentation := { Summary := none, LongDescription := none } }
  match base_type with
  | some bt =>
    if et0.Keys.isSome then
      .error (.valueError "An entity type with a base type must not declare a key.")
    else
      let base_name_e : Except PyError String :=
        match bt with
        | Sum.inr d => .ok d.Name
        | Sum.inl s => (get_entity_type_by_name schema s).map (fun et : EntityType => et.Name)
      base_name_e.bind
        fun base_name =>
          let et := { et0 with BaseType := some base_name, Documentation := mkDocumentation summary long_description }
          .ok ({ schema with EntityTypes := schema.EntityTypes ++ [et] }, et)
  | none =>
    let et := { et0 with Keys := some ([] : List String), Documentation := mkDocumentation summary long_description }
    .ok ({ schema with EntityTypes := schema.EntityTypes ++ [et] }, et)

/-- Embeds `ODataEdmBuilder.add_key`: raise if the `BaseType` key is present; else,
if the property type is primitive, `entity_type["Keys"].append(...)` (a
`KeyError` if the `Keys` key is absent — impossible for builder-created
types, where `BaseType` and `Keys` presence are complementary); else raise. -/
def add_key (entity_type : EntityType) (property_name property_type : String) :
    Except PyError EntityType :=
  if entity_type.BaseType.isSome then
    .error (.valueError "An entity type with a base type must not declare a key.")
  else if property_type ∈ primitives then
    match entity_type.Keys with
    | some ks => .ok { entity_type with Keys := some (ks ++ [property_name]) }
    | none => .error (.keyError "Keys")
  else
    .error (.valueError
      (property_type ++ " not a valid property type as a PropertyRef Key, because it is not a primitive type."))

/-- The `prop` dict built at the top of `ODataEdmBuilder.add_property`
(lines 267-285): `Precision`/`Scale` attached for `Edm.Decimal` and
`MaxLength` for `Edm.String`, behind Python truthiness and `isnan` guards
and the `-1` sentinel. -/
def build_prop (property_name property_type : String)
    (nullable : Bool) (max_length precision scale : Option PyNum) : Property :=
  let prop0 : Property :=
    { Name := property_name, «Type» := property_type, Nullable := nullable,
      MaxLength := none, Precision := none, Scale := none }
  if property_type == "Edm.Decimal" then
    if pyTruthy precision && pyTruthy scale &&
        !pyIsNan precision && !pyIsNan scale then
      { prop0 with Precision := some (pyInt precision),
                   Scale := some (pyInt scale) }
    else prop0
  else if property_type == "Edm.String" then
    if pyTruthy max_length && !pyIsNan max_length &&
        !(pyInt max_length == -1) then
      { prop0 with MaxLength := some (pyInt max_length) }
    else prop0
  else prop0

/-- Embeds `ODataEdmBuilder.add_property`: builds the property dict, appends it to
`Properties` unless the name collides with an existing property or
navigation-property name, and returns the (possibly unappended) property.
Returns (updated entity type, returned property). -/
def add_property (entity_type : EntityType) (property_name property_type : String)
    (nullable : Bool) (max_length precision scale : Option PyNum) :
    EntityType × Property :=
  let prop := build_prop property_name property_type nullable max_length precision scale
  let existing_property_names := entity_type.Properties.map (fun p => p.Name)
  let existing_navigation_property_names :=
    (entity_type.NavigationProperties.getD []).map (fun p => p.Name)
  if property_name ∉ existing_property_names ∧
      property_name ∉ existing_navigation_property_names then
    ({ entity_type with Properties := entity_type.Properties ++ [prop] }, prop)
  else (entity_type, prop)

/-- Embeds `ODataEdmBuilder.validate_entity_type`: raise exactly when the
`BaseType` key is absent and `Properties` is empty. A pure check — it never
mutates the entity type. -/
def validate_entity_type (entity_type : EntityType) : Except PyError Unit :=
  if entity_type.BaseType.isNone && entity_type.Properties.length == 0 then
    .error (.valueError
      "An entity type with no base type must contain at least one Property element.")
  else .ok ()

/-- The `for schema in self.schemas` loop of `add_navigation_property`: the
loop variable `referenced_entity` starts as the name string (`.inl`) and is
reassigned to the found entity-type dict (`.inr`) on the first successful
lookup; after that, `get_entity_type_by_name(schema, dict)` always raises
(no `Name` string equals a dict) and the bare `except: continue` keeps the
resolved dict. -/
def resolveReferenced : List Schema → String ⊕ EntityType → String ⊕ EntityType
  | [], r => r
  | schema :: rest, r =>
    match r with
    | Sum.inl name =>
      match get_entity_type_by_name schema name with
      | .ok et => resolveReferenced rest (Sum.inr et)
      | .error _ => resolveReferenced rest (Sum.inl name)
    | Sum.inr et => resolveReferenced rest (Sum.inr et)

/-- Embeds `ODataEdmBuilder.add_navigation_property`. After the resolution loop:
if `referenced_entity` is still the name string, `referenced_entity["Name"]`
raises `TypeError` (subscripting a `str` with a string); if its `Name`
equals the owner's, raise the self-reference `ValueError`; otherwise build
the navigation-property dict (whose `Schema` is the namespace of the *last*
schema, the loop variable's final value) and append it, creating the
`NavigationProperties` key if needed. Returns the updated owning type. -/
def add_navigation_property (b : ODataEdmBuilder) (entity_type : EntityType)
    (property_name referenced_col referenced_entity : String)
    (is_nullable : Bool) : Except PyError EntityType :=
  match resolveReferenced b.schemas (Sum.inl referenced_entity) with
  | Sum.inl _ => .error (.typeError "string indices must be integers")
  | Sum.inr ref =>
    if ref.Name == entity_type.Name then
      .error (.valueError "A NavigationProperty cannot point to itself.")
    else
      match b.schemas.getLast? with
      | none =>
        -- unreachable: a resolved `.inr` requires at least one schema
        .error (.typeError "NameError: schema")
      | some last =>
        let navigation_property : NavigationProperty :=
          { Schema := last.Namespace, Name := ref.Name, «Type» := ref.Name,
            Partner := entity_type.Name, Nullable := is_nullable,
            Property := property_name, ReferencedProperty := referenced_col }
        let navs := (entity_type.NavigationProperties.getD []) ++ [navigation_property]
        .ok { entity_type with NavigationProperties := some navs }

/-- Embeds `ODataEdmBuilder.add_entity_set`: append the entity-set dict to the
container, then look up the entity type **by the set name** in
`self.schemas[0]`; if that type has a `NavigationProperties` key, attach
one binding per navigation property (Path = its `Type`, Target = its
`Name`) to the already-appended set (dict aliasing: the set inside the
container gains the bindings too). A lookup failure (or empty `schemas`)
raises after the append, leaving the bindingless set in the container. -/
def add_entity_set (b : ODataEdmBuilder) (entity_container : EntityContainer)
    (entity_set_name entity_type_name : String) :
    EntityContainer × Except PyError EntitySet :=
  let es0 : EntitySet :=
    { Name := entity_set_name, EntityType := entity_type_name,
      NavigationPropertyBinding := none }
  match b.schemas with
  | [] =>
    ({ entity_container with EntitySets := entity_container.EntitySets ++ [es0] },
      .error (.typeError "IndexError: list index out of range"))
  | s0 :: _ =>
    match get_entity_type_by_name s0 entity_set_name with
    | .error e =>
      ({ entity_container with EntitySets := entity_container.EntitySets ++ [es0] },
        .error e)
    | .ok entity_type =>
      match entity_type.NavigationProperties with
      | none =>
        ({ entity_container with EntitySets := entity_container.EntitySets ++ [es0] },
          .ok es0)
      | some navs =>
        let bindings := navs.map (fun np => { Path := np.«Type», Target := np.Name : Binding })
        let es1 := { es0 with NavigationPropertyBinding := some bindings }
        ({ entity_container with EntitySets := entity_container.EntitySets ++ [es1] },
          .ok es1)

/-- Sequential `metadata += piece` accumulation of a loop, as the
concatenation of the per-iteration pieces in order. -/
def joinAll : List String → String
  | [] => ""
  | s :: rest => s ++ joinAll rest

/-- The `<EntityType ...>` open tag of `generate_metadata` (lines 324-329):
with a `BaseType="Self.<name>"` attribute exactly when the `BaseType` key is
present. -/
def et_open_tag (et : EntityType) : String :=
  "\t\t\t<EntityType Name=\"" ++ et.Name ++ "\"" ++
    (match et.BaseType with
      | some bt => " BaseType=\"Self." ++ bt ++ "\">"
      | none => ">")

/-- The `<Documentation>` block of `generate_metadata` (lines 332-344),
emitted only when the documentation dict is non-empty. -/
def serialize_documentation (d : Documentation) : String :=
  if d.Summary.isSome || d.LongDescription.isSome then
    "\n\t\t\t\t<Documentation>\n" ++
      (match d.Summary with
        | some s => "\t\t\t\t\t<Summary>" ++ s ++ "</Summary>\n"
        | none => "") ++
      (match d.LongDescription with
        | some l => "\t\t\t\t\t<LongDescription>" ++ l ++ "</LongDescription>\n"
        | none => "") ++
      "\t\t\t\t</Documentation>\n"
  else ""

/-- The `<Key>` block of `generate_metadata` (lines 346-350): emitted only
when the `Keys` key is present and the list non-empty. (The unconditional
`metadata += "\n"` of line 351 is appended by `serialize_entity_type`.) -/
def serialize_key_block (et : EntityType) : String :=
  match et.Keys with
  | some ks =>
    if ks.length > 0 then
      "\n\t\t\t\t<Key>\n" ++
        joinAll (ks.map (fun k => "\t\t\t\t\t<PropertyRef Name=\"" ++ k ++ "\" />\n")) ++
        "\t\t\t\t</Key>"
    else ""
  | none => ""

/-- One `<Property .../>` line of `generate_metadata` (lines 353-372).
The source's `elif "Precision" and "Scale" in prop:` tests, by Python
operator precedence, only `"Scale" in prop`; a scale-without-precision dict
(never built by `add_property`) would raise `KeyError` at
`prop["Precision"]`, rendered here with a `getD 0` placeholder. -/
def serialize_property (p : Property) : String :=
  match p.MaxLength with
  | some ml =>
    "\t\t\t\t<Property Name=\"" ++ p.Name ++ "\" Type=\"" ++ p.«Type» ++
      "\" Nullable=\"" ++ pyBoolStr p.Nullable ++ "\" MaxLength=\"" ++
      toString ml ++ "\" />\n"
  | none =>
    match p.Scale with
    | some sc =>
      "\t\t\t\t<Property Name=\"" ++ p.Name ++ "\" Type=\"" ++ p.«Type» ++
        "\" Nullable=\"" ++ pyBoolStr p.Nullable ++ "\" Precision=\"" ++
        toString (p.Precision.getD 0) ++ "\" Scale=\"" ++ toString sc ++ "\" />\n"
    | none =>
      "\t\t\t\t<Property Name=\"" ++ p.Name ++ "\" Type=\"" ++ p.«Type» ++
        "\" Nullable=\"" ++ pyBoolStr p.Nullable ++ "\" />\n"

/-- One `<NavigationProperty>` element of `generate_metadata`
(lines 373-384). -/
def serialize_navigation_property (np : NavigationProperty) : String :=
  "\t\t\t\t<NavigationProperty Name=\"" ++ np.Name ++ "\" Type=\"Collection(" ++
    np.Schema ++ "." ++ np.«Type» ++ ")\" Partner=\"" ++ np.Partner ++
    "\" Nullable=\"" ++ pyBoolStr np.Nullable ++ "\" >\n" ++
    "\t\t\t\t\t<ReferentialConstraint Property=\"" ++ np.Property ++
    "\" ReferencedProperty=\"" ++ np.ReferencedProperty ++ "\" />\n" ++
    "\t\t\t\t</NavigationProperty>\n"

/-- One `<EntityType>` element of `generate_metadata` (lines 323-385). -/
def serialize_entity_type (et : EntityType) : String :=
  et_open_tag et ++
    serialize_documentation et.Documentation ++
    serialize_key_block et ++ "\n" ++
    joinAll (et.Properties.map serialize_property) ++
    (match et.NavigationProperties with
      | some navs => joinAll (navs.map serialize_navigation_property)
      | none => "") ++
    "\t\t\t</EntityType>\n"

/-- One `<EntitySet>` element of `generate_metadata` (lines 392-410): the
expanded form exactly when the `NavigationPropertyBinding` key is present. -/
def serialize_entity_set (es : EntitySet) : String :=
  match es.NavigationPropertyBinding with
  | some bindings =>
    "\t\t\t\t<EntitySet Name=\"" ++ es.Name ++ "\" EntityType=\"" ++
      es.EntityType ++ "\">\n" ++
      joinAll (bindings.map (fun nb =>
        "\t\t\t\t\t<NavigationPropertyBinding Path=\"" ++ nb.Path ++
          "\" Target=\"" ++ nb.Target ++ "\" />\n")) ++
      "\t\t\t\t</EntitySet>\n"
  | none =>
    "\t\t\t\t<EntitySet Name=\"" ++ es.Name ++ "\" EntityType=\"" ++
      es.EntityType ++ "\" />\n"

/-- One `<EntityContainer>` element of `generate_metadata`
(lines 387-412). -/
def serialize_entity_container (c : EntityContainer) : String :=
  "\t\t\t<EntityContainer Name=\"" ++ c.Name ++ "\">\n" ++
    joinAll (c.EntitySets.map serialize_entity_set) ++
    "\t\t\t</EntityContainer>\n"

/-- One `<Schema>` element of `generate_metadata` (lines 313-414), with an
`Alias` attribute exactly when the `Alias` key is present. -/
def serialize_schema (s : Schema) : String :=
  (match s.Alias with
    | some a =>
      "\t\t<Schema Namespace=\"" ++ s.Namespace ++ "\" Alias=\"" ++ a ++
        "\" xmlns=\"http://docs.oasis-open.org/odata/ns/edm\">\n"
    | none =>
      "\t\t<Schema Namespace=\"" ++ s.Namespace ++
        "\" xmlns=\"http://docs.oasis-open.org/odata/ns/edm\">\n") ++
    joinAll (s.EntityTypes.map serialize_entity_type) ++
    joinAll (s.EntityContainers.map serialize_entity_container) ++
    "\t\t</Schema>\n"

/-- Embeds `ODataEdmBuilder.generate_metadata`: the returned document text (the
source also caches it in `self.metadata`; the builder state is otherwise
unchanged). -/
def generate_metadata (b : ODataEdmBuilder) : String :=
  "<?xml version=\"1.0\" encoding=\"utf-8\"?>\n" ++
    "<edmx:Edmx xmlns:edmx=\"http://docs.oasis-open.org/odata/ns/edmx\" Version=\"4.0\">\n" ++
    "\t<edmx:DataServices>\n" ++
    joinAll (b.schemas.map serialize_schema) ++
    "\t</edmx:DataServices>\n" ++
    "</edmx:Edmx>"

/-- Tests whether `pat` occurs as a contiguous substring of `s` (decidable infix test on
the character lists). -/
def sContains (s pat : String) : Bool :=
  decide (pat.data <:+: s.data)

/-- C1: `add_key` raises whenever the entity type has a `BaseType` (checked
first, so regardless of the validity of the property type); it raises
whenever the property type is outside the fixed primitive set; and otherwise
(no `BaseType`, a `Keys` list present — which is how every keyless
builder-created type is shaped — and a primitive type) it appends the
property name to `Keys` and changes nothing else. An `.error` result models
a raise that leaves the entity type unchanged. -/
theorem C1_add_key_spec (et : EntityType) (pn pt : String) :
    (∀ bt, et.BaseType = some bt →
      add_key et pn pt =
        .error (.valueError "An entity type with a base type must not declare a key.")) ∧
    (pt ∉ primitives → ∃ e, add_key et pn pt = .error e) ∧
    (∀ ks, et.BaseType = none → et.Keys = some ks → pt ∈ primitives →
      add_key et pn pt = .ok { et with Keys := some (ks ++ [pn]) }) := by
  refine ⟨?_, ?_, ?_⟩
  · intro bt hbt
    simp [add_key, hbt]
  · intro hpt
    rcases hB : et.BaseType with _ | bt
    · exact ⟨.valueError
        (pt ++ " not a valid property type as a PropertyRef Key, because it is not a primitive type."),
        by simp [add_key, hB, hpt]⟩
    · exact ⟨.valueError "An entity type with a base type must not declare a key.",
        by simp [add_key, hB]⟩
  · intro ks hb hks hpt
    simp [add_key, hb, hks, hpt]

/-- Witness for C1 at a concrete keyless entity type and a primitive type. -/
theorem C1_witness :
    add_key ⟨"T", [], some ["A"], none, none, ⟨none, none⟩⟩ "Id" "Edm.Int32"
      = .ok ⟨"T", [], some ["A", "Id"], none, none, ⟨none, none⟩⟩ :=
  (C1_add_key_spec ⟨"T", [], some ["A"], none, none, ⟨none, none⟩⟩ "Id" "Edm.Int32").2.2
    ["A"] rfl rfl (by decide)

/-- C2: `validate_entity_type` raises exactly when the entity type has no
`BaseType` and an empty `Properties` list, and succeeds in every other
case. It is a pure check: the embedding returns only `Unit`, mirroring that
the source never writes to the entity type. -/
theorem C2_validate_entity_type_iff (et : EntityType) :
    (validate_entity_type et =
        .error (.valueError "An entity type with no base type must contain at least one Property element.")
      ↔ et.BaseType = none ∧ et.Properties = []) ∧
    (validate_entity_type et = .ok () ↔ ¬(et.BaseType = none ∧ et.Properties = [])) := by
  rcases hB : et.BaseType with _ | bt <;>
    rcases hP : et.Properties with _ | ⟨p, ps⟩ <;>
      simp [validate_entity_type, hB, hP]

/-- C4: when the property name collides with an existing property name or
navigation-property name, `add_property` returns the original entity type
completely unchanged together with the attempted property record (the one
`build_prop` makes from the arguments); the collision is silent, not an
error (the embedding's return type has no error case, mirroring that the
source raises nothing). -/
theorem C4_add_property_collision_noop (et : EntityType) (pn pt : String)
    (nl : Bool) (ml pr sc : Option PyNum)
    (h : pn ∈ et.Properties.map (fun p => p.Name) ∨
      pn ∈ (et.NavigationProperties.getD []).map (fun p => p.Name)) :
    add_property et pn pt nl ml pr sc = (et, build_prop pn pt nl ml pr sc) := by
  have hcond : ¬(pn ∉ et.Properties.map (fun p => p.Name) ∧
      pn ∉ (et.NavigationProperties.getD []).map (fun p => p.Name)) := by
    tauto
  simp only [add_property, if_neg hcond]

/-- Witness for C4 at an entity type already owning a property named "P". -/
theorem C4_witness :
    add_property
        ⟨"T", [⟨"P", "Edm.Int32", true, none, none, none⟩], some [], none, none, ⟨none, none⟩⟩
        "P" "Edm.String" true none none none
      = (⟨"T", [⟨"P", "Edm.Int32", true, none, none, none⟩], some [], none, none, ⟨none, none⟩⟩,
          build_prop "P" "Edm.String" true none none none) :=
  C4_add_property_collision_noop
    ⟨"T", [⟨"P", "Edm.Int32", true, none, none, none⟩], some [], none, none, ⟨none, none⟩⟩
    "P" "Edm.String" true none none none (by decide)

/-- C7 counterexample: the Keys list is *not* non-repeating by construction:
two `add_key` calls with the same property name on a keyless entity type
yield `Keys = ["Id", "Id"]`. -/
theorem C7_counterexample :
    (add_key ⟨"T", [], some [], none, none, ⟨none, none⟩⟩ "Id" "Edm.String").bind
        (fun e => add_key e "Id" "Edm.String")
      = .ok ⟨"T", [], some ["Id", "Id"], none, none, ⟨none, none⟩⟩ := by
  rfl

/-- C7 amended: `add_key` appends unconditionally — there is no duplicate
check — so repeating a key name on a type without a `BaseType` appends it
twice. -/
theorem C7_amended_add_key_duplicates (et : EntityType) (ks : List String)
    (pn pt : String) (h1 : et.BaseType = none) (h2 : et.Keys = some ks)
    (h3 : pt ∈ primitives) :
    (add_key et pn pt).bind (fun e => add_key e pn pt)
      = .ok { et with Keys := some (ks ++ [pn, pn]) } := by
  simp [add_key, h1, h2, h3, Except.bind]

/-- Witness for the amended C7 at a concrete keyless entity type. -/
theorem C7_amended_witness :
    (add_key ⟨"T", [], some [], none, none, ⟨none, none⟩⟩ "K" "Edm.Guid").bind
        (fun e => add_key e "K" "Edm.Guid")
      = .ok ⟨"T", [], some ["K", "K"], none, none, ⟨none, none⟩⟩ :=
  C7_amended_add_key_duplicates ⟨"T", [], some [], none, none, ⟨none, none⟩⟩ []
    "K" "Edm.Guid" rfl rfl (by decide)

/-- C3 (code bug): the misplaced `else` of `get_schema_by_name` raises inside
the loop. With two alias-less schemas "A" and "B", looking up "B" raises the
"does not exist" error — contradicting the function's own docstring ("Raises
... If Name or Alias does not exist as schema in model") — instead of
returning schema "B". -/
theorem C3_lookup_raises_despite_later_match :
    get_schema_by_name ⟨"N", "S", [⟨"A", none, [], []⟩, ⟨"B", none, [], []⟩], ""⟩ "B"
      = .error (.valueError "Schema with Name or Alias B does not exist") := by
  rfl

/-- C5: when the referenced-entity name resolves (through the
all-schemas loop) to an entity type whose name equals the owning type's
name — in particular when it resolves to the owning type itself —
`add_navigation_property` raises the self-reference error; an `.error`
result models a raise that leaves the owning type's navigation properties
unchanged. -/
theorem C5_navigation_self_reference (b : ODataEdmBuilder) (et r : EntityType)
    (pn col refName : String) (nl : Bool)
    (hres : resolveReferenced b.schemas (Sum.inl refName) = Sum.inr r)
    (hname : r.Name = et.Name) :
    add_navigation_property b et pn col refName nl
      = .error (.valueError "A NavigationProperty cannot point to itself.") := by
  simp [add_navigation_property, hres, hname]

/-- Witness for C5: a builder with one schema owning "T", adding to "T" a
navigation property referencing "T". -/
theorem C5_witness :
    add_navigation_property
        ⟨"N", "S", [⟨"A", none, [⟨"T", [], some [], none, none, ⟨none, none⟩⟩], []⟩], ""⟩
        ⟨"T", [], some [], none, none, ⟨none, none⟩⟩ "p" "c" "T" true
      = .error (.valueError "A NavigationProperty cannot point to itself.") :=
  C5_navigation_self_reference
    ⟨"N", "S", [⟨"A", none, [⟨"T", [], some [], none, none, ⟨none, none⟩⟩], []⟩], ""⟩
    ⟨"T", [], some [], none, none, ⟨none, none⟩⟩
    ⟨"T", [], some [], none, none, ⟨none, none⟩⟩ "p" "c" "T" true rfl rfl

/-- The resolution loop of `add_navigation_property` leaves the name string
unresolved when no schema contains an entity type of that name. -/
theorem resolveReferenced_unresolved (schemas : List Schema) (name : String)
    (h : ∀ s ∈ schemas, ∀ t ∈ s.EntityTypes, t.Name ≠ name) :
    resolveReferenced schemas (Sum.inl name) = Sum.inl name := by
  induction schemas with
  | nil => rfl
  | cons s rest ih =>
    have hfind : s.EntityTypes.find? (fun et => et.Name == name) = none := by
      rw [List.find?_eq_none]
      intro t ht
      simpa using h s (List.mem_cons_self s rest) t ht
    have htail : resolveReferenced rest (Sum.inl name) = Sum.inl name :=
      ih (fun s' hs' => h s' (List.mem_cons_of_mem s hs'))
    simp [resolveReferenced, get_entity_type_by_name, hfind, htail]

/-- C10: when no schema contains an entity type named `refName`, the loop
leaves `referenced_entity` as the name string and
`referenced_entity["Name"]` raises a `TypeError` (subscripting a `str`) —
not the builder's "not found" `KeyError` — before any mutation, so the
owning type's navigation properties are unchanged (an `.error` result
produces no updated entity type). -/
theorem C10_unresolved_reference_raises (b : ODataEdmBuilder) (et : EntityType)
    (pn col refName : String) (nl : Bool)
    (h : ∀ s ∈ b.schemas, ∀ t ∈ s.EntityTypes, t.Name ≠ refName) :
    add_navigation_property b et pn col refName nl
      = .error (.typeError "string indices must be integers") := by
  simp [add_navigation_property, resolveReferenced_unresolved b.schemas refName h]

/-- Witness for C10: one schema owning only "T", referencing the absent
"Missing". -/
theorem C10_witness :
    add_navigation_property
        ⟨"N", "S", [⟨"A", none, [⟨"T", [], some [], none, none, ⟨none, none⟩⟩], []⟩], ""⟩
        ⟨"T", [], some [], none, none, ⟨none, none⟩⟩ "p" "c" "Missing" true
      = .error (.typeError "string indices must be integers") :=
  C10_unresolved_reference_raises
    ⟨"N", "S", [⟨"A", none, [⟨"T", [], some [], none, none, ⟨none, none⟩⟩], []⟩], ""⟩
    ⟨"T", [], some [], none, none, ⟨none, none⟩⟩ "p" "c" "Missing" true (by decide)

/-- C6 counterexample: with `property_type = "Edm.String"` and
`max_length = 0` — supplied, numeric, non-NaN and distinct from the
sentinel `-1`, so the claim requires a `MaxLength` attribute — the
returned property carries no `MaxLength`: Python truthiness (`if
max_length and ...`) silently drops the value `0`. -/
theorem C6_counterexample :
    ((add_property ⟨"T", [], some [], none, none, ⟨none, none⟩⟩
        "P" "Edm.String" true (some (PyNum.int 0)) none none).2).MaxLength = none := by
  rfl

/-- The property record `add_property` returns is exactly the one built
from its arguments, independent of the entity type and of the collision
outcome. -/
theorem add_property_snd (et : EntityType) (pn pt : String) (nl : Bool)
    (ml pr sc : Option PyNum) :
    (add_property et pn pt nl ml pr sc).2 = build_prop pn pt nl ml pr sc := by
  simp only [add_property]
  split <;> rfl

/-- C6 amended: the record carries Precision and Scale exactly when the type
is Edm.Decimal and both precision and scale are supplied, integral (hence
non-NaN) and *nonzero* (Python truthiness silently drops `0`); it carries
MaxLength exactly when the type is Edm.String and the supplied value is
integral, nonzero and not the sentinel `-1`; in every other case none of the
three attributes is present. -/
theorem C6_amended_attr_characterization (et : EntityType) (pn pt : String)
    (nl : Bool) (ml pr sc : Option PyNum) :
    (((add_property et pn pt nl ml pr sc).2.Precision ≠ none ∨
        (add_property et pn pt nl ml pr sc).2.Scale ≠ none)
      ↔ pt = "Edm.Decimal" ∧ ∃ a b : Int,
          pr = some (.int a) ∧ sc = some (.int b) ∧ a ≠ 0 ∧ b ≠ 0) ∧
    ((add_property et pn pt nl ml pr sc).2.MaxLength ≠ none
      ↔ pt = "Edm.String" ∧ ∃ n : Int,
          ml = some (.int n) ∧ n ≠ 0 ∧ n ≠ -1) := by
  rw [add_property_snd]
  unfold build_prop
  by_cases hd : pt = "Edm.Decimal"
  · subst hd
    rcases pr with _ | ⟨_ | a⟩ <;> rcases sc with _ | ⟨_ | b⟩ <;>
      simp [pyTruthy, pyIsNan, pyInt] <;>
      (try (by_cases ha : a = 0 <;> simp [ha])) <;>
      (try (by_cases hb : b = 0 <;> simp [hb]))
  · by_cases hs : pt = "Edm.String"
    · subst hs
      rcases ml with _ | ⟨_ | n⟩ <;> simp [pyTruthy, pyIsNan, pyInt, hd]
      by_cases hn : n = 0 <;> by_cases hm : n = -1 <;> simp [hn, hm]
    · simp [hd, hs]

/-- C8: `add_entity_set` appends to the container an entity set named
`entity_set_name` bound to `entity_type_name`; the entity type is looked up
by the *set* name in the first schema, and the appended set carries one
binding per navigation property of that type, in order, with Path the
navigation property's `Type` and Target its `Name` (and no
`NavigationPropertyBinding` key when the type has no
`NavigationProperties` key). -/
theorem C8_add_entity_set_spec (b : ODataEdmBuilder) (c : EntityContainer)
    (sn tn : String) (s0 : Schema) (et : EntityType)
    (h0 : b.schemas.head? = some s0)
    (h1 : get_entity_type_by_name s0 sn = .ok et) :
    add_entity_set b c sn tn =
      ({ c with EntitySets := c.EntitySets ++
          [⟨sn, tn, et.NavigationProperties.map
            (fun navs => navs.map (fun np => ⟨np.«Type», np.Name⟩))⟩] },
        .ok ⟨sn, tn, et.NavigationProperties.map
          (fun navs => navs.map (fun np => ⟨np.«Type», np.Name⟩))⟩) := by
  rcases hbs : b.schemas with _ | ⟨s, rest⟩
  · rw [hbs] at h0
    simp at h0
  · rw [hbs] at h0
    simp at h0
    subst h0
    rcases hnav : et.NavigationProperties with _ | navs <;>
      simp [add_entity_set, hbs, h1, hnav]

/-- Witness for C8: a builder whose first schema owns an entity type named
"ES1" (the *set* name) with one navigation property; the appended set gets
one Path/Target binding from it. -/
theorem C8_witness :
    add_entity_set
        ⟨"N", "Svc",
          [⟨"S1", none,
            [⟨"ES1", [], some [],  none,
              some [⟨"S1", "Other", "Other", "ES1", true, "p", "c"⟩], ⟨none, none⟩⟩], []⟩],
          ""⟩
        ⟨"C1", []⟩ "ES1" "T1"
      = (⟨"C1", [⟨"ES1", "T1", some [⟨"Other", "Other"⟩]⟩]⟩,
          .ok ⟨"ES1", "T1", some [⟨"Other", "Other"⟩]⟩) :=
  C8_add_entity_set_spec
    ⟨"N", "Svc",
      [⟨"S1", none,
        [⟨"ES1", [], some [], none,
          some [⟨"S1", "Other", "Other", "ES1", true, "p", "c"⟩], ⟨none, none⟩⟩], []⟩],
      ""⟩
    ⟨"C1", []⟩ "ES1" "T1"
    ⟨"S1", none,
      [⟨"ES1", [], some [], none,
        some [⟨"S1", "Other", "Other", "ES1", true, "p", "c"⟩], ⟨none, none⟩⟩], []⟩
    ⟨"ES1", [], some [], none,
      some [⟨"S1", "Other", "Other", "ES1", true, "p", "c"⟩], ⟨none, none⟩⟩
    rfl rfl

/-- A string is a substring of itself. -/
theorem sContains_self (p : String) : sContains p p = true := by
  simp [sContains, List.infix_refl]

/-- Substring containment survives appending on the right. -/
theorem sContains_append_l (s t pat : String) (h : sContains s pat = true) :
    sContains (s ++ t) pat = true := by
  simp only [sContains, decide_eq_true_eq] at *
  rw [String.data_append]
  exact h.trans (List.prefix_append s.data t.data).isInfix

/-- Substring containment survives appending on the left. -/
theorem sContains_append_r (s t pat : String) (h : sContains t pat = true) :
    sContains (s ++ t) pat = true := by
  simp only [sContains, decide_eq_true_eq] at *
  rw [String.data_append]
  exact h.trans (List.suffix_append s.data t.data).isInfix

/-- A substring of a member of a list is a substring of the concatenation of
the list. -/
theorem sContains_joinAll (l : List String) (x pat : String) (hx : x ∈ l)
    (h : sContains x pat = true) : sContains (joinAll l) pat = true := by
  induction hx with
  | head as =>
    show sContains (x ++ joinAll as) pat = true
    exact sContains_append_l x (joinAll as) pat h
  | tail y hmem ih =>
    rename_i ys
    show sContains (y ++ joinAll ys) pat = true
    exact sContains_append_r y (joinAll ys) pat ih

/-- C9: for every model containing an entity type created by
`add_entity_type` as "Employee" with base type "Person" (resolved in the
given schema), the generated metadata contains the EntityType open tag with
`BaseType="Self.Person"`, and the `<Key>` block contribution of the
serialized Employee element is the empty string (the element contains no
`<Key>` block, since such a type carries no `Keys` key). -/
theorem C9_employee_basetype_serialization (b : ODataEdmBuilder) (s s' : Schema)
    (et : EntityType) (sm ld : Option String)
    (hadd : add_entity_type s "Employee" (some (Sum.inl "Person")) sm ld = .ok (s', et))
    (hmem : s' ∈ b.schemas) :
    sContains (generate_metadata b)
        "<EntityType Name=\"Employee\" BaseType=\"Self.Person\">" = true ∧
    serialize_key_block et = "" := by
  rcases hres : get_entity_type_by_name s "Person" with e | p
  · simp [add_entity_type, hres, Except.map, Except.bind] at hadd
  · simp only [add_entity_type, hres, Except.map, Except.bind, Option.isSome_none,
      Bool.false_eq_true, if_false, Except.ok.injEq, Prod.mk.injEq] at hadd
    obtain ⟨hs', het⟩ := hadd
    have hpName : p.Name = "Person" := by
      unfold get_entity_type_by_name at hres
      rcases hfind : s.EntityTypes.find? (fun t => t.Name == "Person") with _ | q
      · rw [hfind] at hres
        simp at hres
      · rw [hfind] at hres
        simp only [Except.ok.injEq] at hres
        subst hres
        simpa using List.find?_some hfind
    subst het
    subst hs'
    constructor
    · have h_open : sContains
          (et_open_tag ⟨"Employee", [], none, some p.Name, none, mkDocumentation sm ld⟩)
          "<EntityType Name=\"Employee\" BaseType=\"Self.Person\">" = true := by
        have h_tag : et_open_tag
            ⟨"Employee", [], none, some p.Name, none, mkDocumentation sm ld⟩
            = "\t\t\t" ++ "<EntityType Name=\"Employee\" BaseType=\"Self.Person\">" := by
          rw [hpName]
          rfl
        rw [h_tag]
        exact sContains_append_r _ _ _ (sContains_self _)
      have h_et : sContains
          (serialize_entity_type ⟨"Employee", [], none, some p.Name, none, mkDocumentation sm ld⟩)
          "<EntityType Name=\"Employee\" BaseType=\"Self.Person\">" = true := by
        unfold serialize_entity_type
        exact sContains_append_l _ _ _ (sContains_append_l _ _ _ (sContains_append_l _ _ _
          (sContains_append_l _ _ _ (sContains_append_l _ _ _ (sContains_append_l _ _ _ h_open)))))
      have h_schema : sContains
          (serialize_schema { s with EntityTypes := s.EntityTypes ++
            [⟨"Employee", [], none, some p.Name, none, mkDocumentation sm ld⟩] })
          "<EntityType Name=\"Employee\" BaseType=\"Self.Person\">" = true := by
        unfold serialize_schema
        refine sContains_append_l _ _ _ (sContains_append_l _ _ _ (sContains_append_r _ _ _ ?_))
        refine sContains_joinAll _ _ _ ?_ h_et
        exact List.mem_map_of_mem serialize_entity_type
          (by simp)
      unfold generate_metadata
      refine sContains_append_l _ _ _ (sContains_append_l _ _ _ (sContains_append_r _ _ _ ?_))
      exact sContains_joinAll _ _ _ (List.mem_map_of_mem serialize_schema hmem) h_schema
    · rfl

/-- Witness for C9: the two-type scenario "Person" (base) and "Employee"
(derived) in one schema. -/
theorem C9_witness :
    sContains
        (generate_metadata ⟨"NS", "Svc",
          [⟨"S1", none,
            [⟨"Person", [], some [], none, none, ⟨none, none⟩⟩,
              ⟨"Employee", [], none, some "Person", none, ⟨none, none⟩⟩], []⟩], ""⟩)
        "<EntityType Name=\"Employee\" BaseType=\"Self.Person\">" = true ∧
    serialize_key_block ⟨"Employee", [], none, some "Person", none, ⟨none, none⟩⟩ = "" :=
  C9_employee_basetype_serialization
    ⟨"NS", "Svc",
      [⟨"S1", none,
        [⟨"Person", [], some [], none, none, ⟨none, none⟩⟩,
          ⟨"Employee", [], none, some "Person", none, ⟨none, none⟩⟩], []⟩], ""⟩
    ⟨"S1", none, [⟨"Person", [], some [], none, none, ⟨none, none⟩⟩], []⟩
    ⟨"S1", none,
      [⟨"Person", [], some [], none, none, ⟨none, none⟩⟩,
        ⟨"Employee", [], none, some "Person", none, ⟨none, none⟩⟩], []⟩
    ⟨"Employee", [], none, some "Person", none, ⟨none, none⟩⟩
    none none rfl (List.Mem.head _)

end EdmModel

